import Mathlib

/-!
Verification of the gateway-abstraction layer of the unified-payments API
(`src/adapters/BaseGatewayAdapter.js`, `src/adapters/StripeAdapter.js`,
`src/adapters/PaystackAdapter.js`, `src/factories/GatewayFactory.js`).

The JavaScript code is shallowly embedded: JS numbers on the monetary paths
are modelled as rationals, JS objects as structures, absent/`undefined`
fields as `Option`, JS truthiness as explicit `truthy*` predicates, the
provider transports (fetch / Stripe SDK) as oracle functions returning
`Except`, and the impure id generator inputs (`Date.now()`,
`Math.random().toString(36)`) as an explicit stream of draws threaded by
invocation index.  Adapter methods return both the unified envelope and the
list of provider requests issued, so "no network call" is the statement
that this list is empty.
-/

namespace UnifiedPayments

/-- JS truthiness of an optional string field: absent (`undefined`) and the
empty string are falsy. -/
def truthyStr : Option String → Bool
  | none => false
  | some s => !(s == "")

/-- JS truthiness of an optional numeric field: absent (`undefined`) and `0`
are falsy. -/
def truthyNum : Option ℚ → Bool
  | none => false
  | some a => !(a == 0)

/-- `String.prototype.toLowerCase()`: character-wise lowering.  All strings
it is applied to in this code are ASCII, where this agrees with JS; defined
structurally (rather than through `String.toLower`) so concrete instances
reduce inside the kernel. -/
def jsToLower (s : String) : String := String.mk (s.data.map Char.toLower)

/-- `String.prototype.toUpperCase()`, same modelling as `jsToLower`. -/
def jsToUpper (s : String) : String := String.mk (s.data.map Char.toUpper)

/-- `o || d` for JS string values: the default is used when the field is
absent or the empty string. -/
def jsOrStr (o : Option String) (d : String) : String :=
  match o with
  | none => d
  | some s => if s == "" then d else s

/-- Base-36 digit character, as used by `Number.prototype.toString(36)`:
`0`-`9` then `a`-`z`. -/
def digit36 (n : Nat) : Char :=
  if n < 10 then Char.ofNat (48 + n) else Char.ofNat (87 + n)

/-- Fuel-indexed base-36 digit list (most significant first); the fuel is
only a structural-termination device and any fuel `≥ n` is exact. -/
def toBase36Core : Nat → Nat → List Char
  | _, 0 => []
  | 0, _ => []
  | fuel + 1, n + 1 => toBase36Core fuel ((n + 1) / 36) ++ [digit36 ((n + 1) % 36)]

/-- `n.toString(36)` for a nonnegative integer JS number (`Date.now()` is an
integer below 2^53, so this is the exact JS behaviour on that path). -/
def toBase36 (n : Nat) : String :=
  if n = 0 then "0" else String.mk (toBase36Core n n)

/-- `s.substr(2, 5)`: up to five characters starting at index 2.  The
strings this is applied to (`Math.random().toString(36)`) are ASCII, so
code-unit indexing and character indexing agree. -/
def randSuffix (s : String) : String :=
  String.mk ((s.data.drop 2).take 5)

/-- `BaseGatewayAdapter.generateUnifiedId`, with the impure inputs made
explicit: `gatewayLower` is `this.gatewayName.toLowerCase()`, `now` is
`Date.now()`, and `rand` is the string `Math.random().toString(36)`. -/
def generateUnifiedId (gatewayLower : String) (now : Nat) (rand : String) : String :=
  "unified_" ++ gatewayLower ++ "_" ++ toBase36 now ++ "_" ++ randSuffix rand

/-- The unified id produced by the `k`-th `generateUnifiedId()` invocation of
an adapter call, given the stream `draws` of `(Date.now(), Math.random().toString(36))`
pairs. `gatewayName` is `this.gatewayName` (the constructor name). -/
def genAt (gatewayName : String) (draws : Nat → Nat × String) (k : Nat) : String :=
  generateUnifiedId (jsToLower gatewayName) (draws k).1 (draws k).2

/-- The `error` object of a `UnifiedError` envelope. -/
structure ErrorInfo where
  message : String
  code : String
  details : Option String
deriving Repr, DecidableEq

/-- The unified envelope returned by every adapter method: either a
`UnifiedResponse` (`success: true`) or a `UnifiedError` (`success: false`). -/
inductive UnifiedResult (α : Type) where
  | ok (gateway : String) (gatewayResponse : α) (timestamp : String) (unifiedId : String)
  | err (gateway : String) (error : ErrorInfo) (timestamp : String) (unifiedId : String)
deriving Repr, DecidableEq

namespace UnifiedResult

def success : UnifiedResult α → Bool
  | .ok .. => true
  | .err .. => false

def gateway : UnifiedResult α → String
  | .ok g _ _ _ => g
  | .err g _ _ _ => g

def unifiedId : UnifiedResult α → String
  | .ok _ _ _ u => u
  | .err _ _ _ u => u

def timestamp : UnifiedResult α → String
  | .ok _ _ t _ => t
  | .err _ _ t _ => t

def response : UnifiedResult α → Option α
  | .ok _ r _ _ => some r
  | .err _ _ _ _ => none

def errorCode : UnifiedResult α → Option String
  | .ok _ _ _ _ => none
  | .err _ e _ _ => some e.code

def errorMessage : UnifiedResult α → Option String
  | .ok _ _ _ _ => none
  | .err _ e _ _ => some e.message

end UnifiedResult

/-- `BaseGatewayAdapter.formatResponse`; `unifiedId` is the value of the
`generateUnifiedId()` call it performs. -/
def formatResponse (gatewayName timestamp unifiedId : String) (gatewayResponse : α) :
    UnifiedResult α :=
  .ok (jsToLower gatewayName) gatewayResponse timestamp unifiedId

/-- `BaseGatewayAdapter.formatError`: the code is `error.code || "UNKNOWN_ERROR"`
and the details are `error.details || null`. -/
def formatError (gatewayName timestamp unifiedId : String) (message : String)
    (code : Option String) (details : Option String) : UnifiedResult α :=
  .err (jsToLower gatewayName) ⟨message, jsOrStr code "UNKNOWN_ERROR", details⟩ timestamp unifiedId

/-- The fields of a unified payment request read by the adapters under
verification; `metadata` is the caller's open key-value mapping. -/
structure PaymentData where
  amount : Option ℚ := none
  currency : Option String := none
  customerEmail : Option String := none
  description : Option String := none
  paymentMethodId : Option String := none
  paymentIntentId : Option String := none
  channel : Option String := none
  callbackUrl : Option String := none
  metadata : List (String × String) := []
deriving Repr, DecidableEq

/-- Result shape of `BaseGatewayAdapter.validatePaymentData`. -/
structure ValidationResult where
  isValid : Bool
  errors : List String
deriving Repr, DecidableEq

/-- `BaseGatewayAdapter.validatePaymentData`: flags the required fields
`amount` and `currency` that are JS-falsy, then rejects `amount <= 0`.
(No other check is performed.) -/
def validatePaymentData (p : PaymentData) : ValidationResult :=
  let missing :=
    (if truthyNum p.amount then [] else ["amount"]) ++
    (if truthyStr p.currency then [] else ["currency"])
  if missing.length > 0 then
    ⟨false, missing.map (fun field => field ++ " is required")⟩
  else if p.amount.getD 0 ≤ 0 then
    ⟨false, ["amount must be greater than 0"]⟩
  else
    ⟨true, []⟩

/-- The metadata object sent to a provider:
`{ unified_payment_id: ..., customer_email: ..., ...callerMetadata }`,
where a caller key overrides the base field of the same name (JS spread). -/
structure MergedMetadata where
  unified_payment_id : String
  customer_email : Option String
  extra : List (String × String)
deriving Repr, DecidableEq

/-- The `unified_payment_id` value actually present in the sent metadata
object after the JS spread: a caller-supplied key of that name wins. -/
def MergedMetadata.effectiveUnifiedPaymentId (m : MergedMetadata) : String :=
  match m.extra.find? (fun kv => kv.1 == "unified_payment_id") with
  | some kv => kv.2
  | none => m.unified_payment_id

/-- Input to `verifyWebhook`: the (serialized) request body and the
signature header value (`none` when the header is absent). -/
structure WebhookData where
  body : String
  signature : Option String
deriving Repr, DecidableEq

/-- Result of `verifyWebhook`: `{isValid: true, event}` or
`{isValid: false, error}`. -/
structure WebhookResult where
  isValid : Bool
  event : Option String
  error : Option String
deriving Repr, DecidableEq

namespace StripeAdapter

/-- `this.gatewayName` of the Stripe adapter (`this.constructor.name`). -/
def gatewayName : String := "StripeAdapter"

/-- Parameters of a `stripe.paymentIntents.create` call.  `confirm := false`
and `payment_method := none` model the branches where those keys are not
present in the created object. -/
structure CreateParams where
  amount : ℚ
  currency : String
  payment_method : Option String
  confirm : Bool
  description : String
  metadata : MergedMetadata
deriving Repr, DecidableEq

/-- A provider call issued through the Stripe SDK by the code under
verification. -/
inductive StripeCall where
  | create (params : CreateParams)
  | confirm (paymentIntentId : String)
deriving Repr, DecidableEq

/-- A payment-intent object as returned by the Stripe SDK. -/
structure StripeIntent where
  id : String
  status : String
  amount : ℚ
  currency : String
  client_secret : String
  next_action : Option String
  created : Nat := 0
  last_payment_error : Option String := none
deriving Repr, DecidableEq

/-- An error thrown by the Stripe SDK: Stripe errors may carry a provider
error `code` and `details`; plain JS `Error`s carry neither. -/
structure SdkError where
  message : String
  code : Option String := none
  details : Option String := none
deriving Repr, DecidableEq

/-- The impure context of a Stripe adapter call: the id-generator draw
stream, the envelope timestamp, and the SDK transport oracle. -/
structure Env where
  draws : Nat → Nat × String
  nowIso : String
  transport : StripeCall → Except SdkError StripeIntent

/-- The `stripe.paymentIntents.create` parameter object built by the
adapter; the metadata `unified_payment_id` is the first `generateUnifiedId()`
invocation (draw 0). -/
def createParams (env : Env) (p : PaymentData) (payment_method : Option String)
    (confirm : Bool) (descDefault : String) : CreateParams :=
  { amount := p.amount.getD 0,
    currency := jsToLower (p.currency.getD ""),
    payment_method := payment_method,
    confirm := confirm,
    description := jsOrStr p.description descDefault,
    metadata :=
      { unified_payment_id := genAt gatewayName env.draws 0,
        customer_email := p.customerEmail,
        extra := p.metadata } }

/-- `gatewayResponse` payload of a successful `StripeAdapter.processPayment`. -/
structure PaymentResponse where
  paymentIntentId : String
  status : String
  amount : ℚ
  currency : String
  clientSecret : String
  requiresAction : Bool
  nextAction : Option String
deriving Repr, DecidableEq

/-- `StripeAdapter.processPayment`.  Returns the unified envelope together
with the list of SDK calls issued.  The second component of the branch pair
is the index of the draw used for the envelope's `unifiedId` (branches that
built create-params already consumed draw 0 for the metadata id). -/
def processPayment (env : Env) (p : PaymentData) :
    UnifiedResult PaymentResponse × List StripeCall :=
  if !(validatePaymentData p).isValid then
    (formatError gatewayName env.nowIso (genAt gatewayName env.draws 0)
      ("Validation failed: " ++ String.intercalate ", " (validatePaymentData p).errors)
      none none, [])
  else
    let branch : StripeCall × Nat :=
      if truthyStr p.paymentMethodId then
        (.create (createParams env p p.paymentMethodId true "Payment via Unified Payments API"), 1)
      else if truthyStr p.paymentIntentId then
        (.confirm (p.paymentIntentId.getD ""), 0)
      else
        (.create (createParams env p none false "Payment via Unified Payments API"), 1)
    match env.transport branch.1 with
    | .error e =>
        (formatError gatewayName env.nowIso (genAt gatewayName env.draws branch.2)
          e.message e.code e.details, [branch.1])
    | .ok pi =>
        (formatResponse gatewayName env.nowIso (genAt gatewayName env.draws branch.2)
          { paymentIntentId := pi.id, status := pi.status, amount := pi.amount,
            currency := pi.currency, clientSecret := pi.client_secret,
            requiresAction := pi.status == "requires_action",
            nextAction := pi.next_action }, [branch.1])

/-- `gatewayResponse` payload of a successful `StripeAdapter.createPaymentIntent`. -/
structure IntentResponse where
  paymentIntentId : String
  clientSecret : String
  status : String
  amount : ℚ
  currency : String
deriving Repr, DecidableEq

/-- `StripeAdapter.createPaymentIntent`: always an unconfirmed create. -/
def createPaymentIntent (env : Env) (p : PaymentData) :
    UnifiedResult IntentResponse × List StripeCall :=
  if !(validatePaymentData p).isValid then
    (formatError gatewayName env.nowIso (genAt gatewayName env.draws 0)
      ("Validation failed: " ++ String.intercalate ", " (validatePaymentData p).errors)
      none none, [])
  else
    let call : StripeCall :=
      .create (createParams env p none false "Payment intent via Unified Payments API")
    match env.transport call with
    | .error e =>
        (formatError gatewayName env.nowIso (genAt gatewayName env.draws 1)
          e.message e.code e.details, [call])
    | .ok pi =>
        (formatResponse gatewayName env.nowIso (genAt gatewayName env.draws 1)
          { paymentIntentId := pi.id, clientSecret := pi.client_secret,
            status := pi.status, amount := pi.amount, currency := pi.currency },
         [call])

/-- `StripeAdapter.verifyWebhook`.  `constructEvent` is the SDK's
`stripe.webhooks.constructEvent(body, signature, secret)` oracle, which may
throw (`Except.error`); the second component counts its invocations. -/
def verifyWebhook (constructEvent : String → String → String → Except String String)
    (webhookSecret : String) (w : WebhookData) : WebhookResult × Nat :=
  if !truthyStr w.signature then
    (⟨false, none, some "No signature provided"⟩, 0)
  else
    match constructEvent w.body (w.signature.getD "") webhookSecret with
    | .error msg => (⟨false, none, some msg⟩, 1)
    | .ok event => (⟨true, some event, none⟩, 1)

end StripeAdapter

namespace PaystackAdapter

/-- `this.gatewayName` of the Paystack adapter (`this.constructor.name`). -/
def gatewayName : String := "PaystackAdapter"

/-- Body of the `POST /transaction/initialize` request built by
`processPayment` / `createPaymentIntent` (`transactionData` in the source). -/
structure TransactionRequest where
  amount : ℚ
  email : String
  currency : String
  reference : String
  callback_url : String
  metadata : MergedMetadata
  channels : Option (List String)
deriving Repr, DecidableEq

/-- The `data` object of a successful `/transaction/initialize` provider
response. -/
structure TransactionData where
  id : String
  reference : String
  authorization_url : String
  access_code : String
deriving Repr, DecidableEq

/-- Body of the `POST /refund` request (`refundDataPayload` in the source);
`amount` is `undefined` (absent) when the caller's amount is falsy. -/
structure RefundRequest where
  transaction : String
  amount : Option ℚ
  reason : String
deriving Repr, DecidableEq

/-- The `data` object of a successful `/refund` provider response. -/
structure RefundData where
  id : String
  status : String
  amount : ℚ
  currency : String
  reference : String
deriving Repr, DecidableEq

/-- The `data` object of a successful `/transaction/verify/:reference`
provider response. -/
structure VerifyData where
  status : String
  amount : ℚ
  currency : String
  reference : String
  gateway : String
  channel : String
  paid_at : String
  created_at : String
deriving Repr, DecidableEq

/-- The impure context of a Paystack adapter call: the id-generator draw
stream, envelope timestamp, the stringified `process.env.BASE_URL`, and one
transport oracle per endpoint (`makeRequest` wraps any failure of these in
a thrown `Error`, modelled as `Except.error` carrying the inner message). -/
structure Env where
  draws : Nat → Nat × String
  nowIso : String
  baseUrl : String
  transport : TransactionRequest → Except String TransactionData
  refundTransport : RefundRequest → Except String RefundData
  verifyTransport : String → Except String VerifyData

/-- The `transactionData` object sent to `/transaction/initialize`:
the client-side reference is the first `generateUnifiedId()` invocation
(draw 0) and the metadata `unified_payment_id` the second (draw 1);
`withChannel` distinguishes `processPayment` (which forwards a truthy
`channel` as a one-element list) from `createPaymentIntent` (which has no
channel handling). -/
def transactionData (env : Env) (p : PaymentData) (withChannel : Bool) :
    TransactionRequest :=
  { amount := p.amount.getD 0 * 100,
    email := p.customerEmail.getD "",
    currency := jsToUpper (p.currency.getD ""),
    reference := genAt gatewayName env.draws 0,
    callback_url := jsOrStr p.callbackUrl (env.baseUrl ++ "/api/payments/callback"),
    metadata :=
      { unified_payment_id := genAt gatewayName env.draws 1,
        customer_email := p.customerEmail,
        extra := p.metadata },
    channels :=
      if withChannel && truthyStr p.channel then some [p.channel.getD ""] else none }

/-- `gatewayResponse` payload of a successful Paystack
`processPayment` / `createPaymentIntent`. -/
structure PayResponse where
  transactionId : String
  reference : String
  authorizationUrl : String
  accessCode : String
  status : String
  amount : ℚ
  currency : String
deriving Repr, DecidableEq

/-- `PaystackAdapter.processPayment`.  Returns the unified envelope and the
list of `/transaction/initialize` requests issued.  On the transaction path
the envelope `unifiedId` is the third `generateUnifiedId()` invocation
(draw 2). -/
def processPayment (env : Env) (p : PaymentData) :
    UnifiedResult PayResponse × List TransactionRequest :=
  if !(validatePaymentData p).isValid then
    (formatError gatewayName env.nowIso (genAt gatewayName env.draws 0)
      ("Validation failed: " ++ String.intercalate ", " (validatePaymentData p).errors)
      none none, [])
  else if !truthyStr p.customerEmail then
    (formatError gatewayName env.nowIso (genAt gatewayName env.draws 0)
      "customerEmail is required for Paystack payments" none none, [])
  else
    let req := transactionData env p true
    match env.transport req with
    | .error msg =>
        (formatError gatewayName env.nowIso (genAt gatewayName env.draws 2)
          ("Paystack request failed: " ++ msg) none none, [req])
    | .ok d =>
        (formatResponse gatewayName env.nowIso (genAt gatewayName env.draws 2)
          { transactionId := d.id, reference := d.reference,
            authorizationUrl := d.authorization_url, accessCode := d.access_code,
            status := "pending", amount := p.amount.getD 0,
            currency := p.currency.getD "" }, [req])

/-- `PaystackAdapter.createPaymentIntent`: same flow as `processPayment`
but with its own email error message and no channel handling. -/
def createPaymentIntent (env : Env) (p : PaymentData) :
    UnifiedResult PayResponse × List TransactionRequest :=
  if !(validatePaymentData p).isValid then
    (formatError gatewayName env.nowIso (genAt gatewayName env.draws 0)
      ("Validation failed: " ++ String.intercalate ", " (validatePaymentData p).errors)
      none none, [])
  else if !truthyStr p.customerEmail then
    (formatError gatewayName env.nowIso (genAt gatewayName env.draws 0)
      "customerEmail is required for Paystack payment intents" none none, [])
  else
    let req := transactionData env p false
    match env.transport req with
    | .error msg =>
        (formatError gatewayName env.nowIso (genAt gatewayName env.draws 2)
          ("Paystack request failed: " ++ msg) none none, [req])
    | .ok d =>
        (formatResponse gatewayName env.nowIso (genAt gatewayName env.draws 2)
          { transactionId := d.id, reference := d.reference,
            authorizationUrl := d.authorization_url, accessCode := d.access_code,
            status := "pending", amount := p.amount.getD 0,
            currency := p.currency.getD "" }, [req])

/-- Caller input of `PaystackAdapter.processRefund`. -/
structure RefundInput where
  transactionReference : Option String := none
  amount : Option ℚ := none
  reason : Option String := none
deriving Repr, DecidableEq

/-- `gatewayResponse` payload of a successful Paystack refund. -/
structure RefundResponse where
  refundId : String
  status : String
  amount : ℚ
  currency : String
  reference : String
deriving Repr, DecidableEq

/-- `PaystackAdapter.processRefund`: a truthy amount is multiplied by 100 on
send; the provider's amount is divided by 100 on read. -/
def processRefund (env : Env) (r : RefundInput) :
    UnifiedResult RefundResponse × List RefundRequest :=
  if !truthyStr r.transactionReference then
    (formatError gatewayName env.nowIso (genAt gatewayName env.draws 0)
      "transactionReference is required for Paystack refunds" none none, [])
  else
    let req : RefundRequest :=
      { transaction := r.transactionReference.getD "",
        amount := if truthyNum r.amount then some (r.amount.getD 0 * 100) else none,
        reason := jsOrStr r.reason "requested_by_customer" }
    match env.refundTransport req with
    | .error msg =>
        (formatError gatewayName env.nowIso (genAt gatewayName env.draws 0)
          ("Paystack request failed: " ++ msg) none none, [req])
    | .ok d =>
        (formatResponse gatewayName env.nowIso (genAt gatewayName env.draws 0)
          { refundId := d.id, status := d.status, amount := d.amount / 100,
            currency := d.currency, reference := d.reference }, [req])

/-- `gatewayResponse` payload of a successful Paystack status lookup. -/
structure StatusResponse where
  status : String
  amount : ℚ
  currency : String
  reference : String
  gateway : String
  channel : String
  paidAt : String
  createdAt : String
deriving Repr, DecidableEq

/-- `PaystackAdapter.getPaymentStatus`: the provider's amount is divided by
100 on read.  The second component lists the references fetched. -/
def getPaymentStatus (env : Env) (paymentReference : String) :
    UnifiedResult StatusResponse × List String :=
  if paymentReference == "" then
    (formatError gatewayName env.nowIso (genAt gatewayName env.draws 0)
      "Payment reference is required" none none, [])
  else
    match env.verifyTransport paymentReference with
    | .error msg =>
        (formatError gatewayName env.nowIso (genAt gatewayName env.draws 0)
          ("Paystack request failed: " ++ msg) none none, [paymentReference])
    | .ok d =>
        (formatResponse gatewayName env.nowIso (genAt gatewayName env.draws 0)
          { status := d.status, amount := d.amount / 100, currency := d.currency,
            reference := d.reference, gateway := d.gateway, channel := d.channel,
            paidAt := d.paid_at, createdAt := d.created_at }, [paymentReference])

/-- `PaystackAdapter.verifyWebhook`.  `hmac` abstracts the trusted crypto
primitive: the hex digest of HMAC-SHA512 keyed by its first argument over
the JSON serialization of the body.  The second component counts its
invocations. -/
def verifyWebhook (hmac : String → String → String) (secretKey : String)
    (w : WebhookData) : WebhookResult × Nat :=
  if !truthyStr w.signature then
    (⟨false, none, some "No signature provided"⟩, 0)
  else
    let hash := hmac secretKey w.body
    if !(hash == w.signature.getD "") then
      (⟨false, none, some "Invalid webhook signature"⟩, 1)
    else
      (⟨true, some w.body, none⟩, 1)

end PaystackAdapter

/-- `StripeAdapter.getSupportedCurrencies` (static list, verbatim). -/
def StripeAdapter.getSupportedCurrencies : List String :=
   ["usd", "eur", "gbp", "cad", "aud", "jpy", "chf", "sek", "nok", "dkk",
    "pln", "czk", "huf", "ron", "bgn", "hrk", "rub", "try", "brl", "mxn",
    "ars", "clp", "cop", "pen", "uyu", "pyg", "bob", "ecv", "gtq", "hnl",
    "nio", "crc", "pab", "vef", "dop", "jmd", "ttd", "bbd", "bzd", "xcd",
    "htg", "awg", "ang", "srd", "gyd", "fjd", "pgk", "wst", "vuv", "top",
    "sbd", "kwd", "bhd", "omr", "qar", "aed", "sar", "jod", "lbp", "egp",
    "mad", "tnd", "lyd", "dzd", "mro", "mru", "ngn", "ghs", "kes", "ugx",
    "tzs", "bif", "rwf", "djf", "kmf", "mga", "mur", "scr", "szl", "zmw",
    "mwk", "bwp", "naf", "szl", "ls", "stn", "aoa", "cve", "gmd", "gnb", "gw",
    "mrt", "ml", "bf", "bj", "tg", "ci", "sn", "gm", "gn", "sl", "lr", "cm",
    "cf", "td", "ne", "sd", "er", "et", "so", "dj", "yt", "km", "mg", "re",
    "mu", "sc", "com", "km", "yt", "dj", "so", "et", "er", "sd", "ne", "td",
    "cf", "cm", "lr", "sl", "gn", "gm", "sn", "ci", "tg", "bj", "bf", "ml",
    "mrt", "gw", "gnb", "gmd", "cve", "aoa"]

/-- `StripeAdapter.getSupportedPaymentMethods` (static list, verbatim). -/
def StripeAdapter.getSupportedPaymentMethods : List String :=
   ["card", "bank_transfer", "sepa_debit", "sofort", "ideal", "bancontact",
    "eps", "giropay", "p24", "alipay", "wechat_pay", "klarna", "affirm",
    "afterpay_clearpay"]

/-- `PaystackAdapter.getSupportedCurrencies` (static list, verbatim). -/
def PaystackAdapter.getSupportedCurrencies : List String :=
   ["NGN", "GHS", "ZAR", "USD", "EUR", "GBP", "KES", "UGX", "TZS", "ZMW",
    "MAD", "EGP", "XOF", "XAF", "CDF", "RWF", "BIF", "DJF", "KMF", "MGA",
    "MUR", "SCR", "SZL", "MWK", "BWP", "NAD", "LSL", "STN", "AOA", "CVE",
    "GMD", "GNF", "GW", "MRT", "ML", "BF", "BJ", "TG", "CI", "SN", "GM", "GN",
    "SL", "LR", "CM", "CF", "TD", "NE", "SD", "ER", "ET", "SO", "DJ", "YT",
    "KM", "MG", "RE", "MU", "SC", "COM"]

/-- `PaystackAdapter.getSupportedPaymentMethods` (static list, verbatim,
duplicates included). -/
def PaystackAdapter.getSupportedPaymentMethods : List String :=
   ["card", "bank", "ussd", "qr", "mobile_money", "bank_transfer",
    "payattitude", "paga", "1voucher", "gt_bank", "internet_banking",
    "cashenvoy", "providus_bank", "pay_with_bank", "pay_with_bank_transfer",
    "standard_bank", "zenith_bank", "access_bank", "gt_bank", "first_bank",
    "fidelity_bank", "ecobank", "stanbic_bank", "union_bank", "wema_bank",
    "heritage_bank", "keystone_bank", "polaris_bank", "unity_bank",
    "jaiz_bank", "stanbic_ibtc_bank", "diamond_bank", "mainstreet_bank",
    "fcmb_bank", "uba_bank", "fidelity_bank", "ecobank", "stanbic_bank",
    "union_bank", "wema_bank", "heritage_bank", "keystone_bank",
    "polaris_bank", "unity_bank", "jaiz_bank", "stanbic_ibtc_bank",
    "diamond_bank", "mainstreet_bank", "fcmb_bank", "uba_bank"]

/-- The adapter instances the factory can register. -/
inductive Adapter where
  | stripe
  | paystack
deriving Repr, DecidableEq

/-- Dispatch of `getSupportedCurrencies` through the adapter interface. -/
def Adapter.getSupportedCurrencies : Adapter → List String
  | .stripe => StripeAdapter.getSupportedCurrencies
  | .paystack => PaystackAdapter.getSupportedCurrencies

/-- Dispatch of `getSupportedPaymentMethods` through the adapter interface. -/
def Adapter.getSupportedPaymentMethods : Adapter → List String
  | .stripe => StripeAdapter.getSupportedPaymentMethods
  | .paystack => PaystackAdapter.getSupportedPaymentMethods

/-- The environment variables read by `GatewayFactory`; `none` models an
unset variable. -/
structure FactoryEnv where
  STRIPE_SECRET_KEY : Option String := none
  PAYSTACK_SECRET_KEY : Option String := none
deriving Repr, DecidableEq

namespace GatewayFactory

/-- `initializeAdapters`: the `adapters` map after construction — an adapter
is registered under its lower-case name iff its secret key is truthy. -/
def adapters (env : FactoryEnv) : List (String × Adapter) :=
  (if truthyStr env.STRIPE_SECRET_KEY then [("stripe", Adapter.stripe)] else []) ++
  (if truthyStr env.PAYSTACK_SECRET_KEY then [("paystack", Adapter.paystack)] else [])

/-- `GatewayFactory.getGateway`: case-insensitive lookup; the only throwing
factory operation, modelled as `Except.error` carrying the thrown message. -/
def getGateway (env : FactoryEnv) (gatewayName : String) : Except String Adapter :=
  let normalizedName := jsToLower gatewayName
  match (adapters env).find? (fun kv => kv.1 == normalizedName) with
  | none => .error ("Unsupported payment gateway: " ++ gatewayName)
  | some kv => .ok kv.2

/-- `GatewayFactory.getAvailableGateways`. -/
def getAvailableGateways (env : FactoryEnv) : List String :=
  (adapters env).map (fun kv => kv.1)

/-- `GatewayFactory.isGatewayAvailable`: a total boolean — it never throws. -/
def isGatewayAvailable (env : FactoryEnv) (gatewayName : String) : Bool :=
  let normalizedName := jsToLower gatewayName
  (adapters env).any (fun kv => kv.1 == normalizedName)

/-- The capability report returned by `getGatewayCapabilities`. -/
structure Capabilities where
  name : String
  supportedCurrencies : List String
  supportedPaymentMethods : List String
  features_refunds : Bool
  features_webhooks : Bool
  features_paymentIntents : Bool
  features_statusChecking : Bool
deriving Repr, DecidableEq

/-- `GatewayFactory.getGatewayCapabilities`: calls `getGateway`, so it
propagates exactly that lookup failure and nothing else. -/
def getGatewayCapabilities (env : FactoryEnv) (gatewayName : String) :
    Except String Capabilities :=
  match getGateway env gatewayName with
  | .error e => .error e
  | .ok gateway =>
      .ok { name := gatewayName,
            supportedCurrencies := gateway.getSupportedCurrencies,
            supportedPaymentMethods := gateway.getSupportedPaymentMethods,
            features_refunds := true,
            features_webhooks := true,
            features_paymentIntents := true,
            features_statusChecking := true }

/-- The record returned by `validateConfiguration`. -/
structure ConfigValidation where
  isValid : Bool
  errors : List String
  warnings : List String
  availableGateways : List String
deriving Repr, DecidableEq

/-- `GatewayFactory.validateConfiguration`: `errors` is initialized empty and
never pushed to; warnings flag each missing secret key, with a fallback
warning when nothing is missing. -/
def validateConfiguration (env : FactoryEnv) : ConfigValidation :=
  let errors : List String := []
  let warnings :=
    (if !truthyStr env.STRIPE_SECRET_KEY then
       ["Stripe is not configured (STRIPE_SECRET_KEY missing)"] else []) ++
    (if !truthyStr env.PAYSTACK_SECRET_KEY then
       ["Paystack is not configured (PAYSTACK_SECRET_KEY missing)"] else [])
  let warnings := if warnings.length == 0 then
    ["All supported gateways are configured"] else warnings
  { isValid := errors.length == 0,
    errors := errors,
    warnings := warnings,
    availableGateways := getAvailableGateways env }

/-- The record returned by `getGatewayStats`. -/
structure Stats where
  totalGateways : Nat
  availableGateways : List String
  configurationStatus : ConfigValidation
deriving Repr, DecidableEq

/-- `GatewayFactory.getGatewayStats`. -/
def getGatewayStats (env : FactoryEnv) : Stats :=
  { totalGateways := (adapters env).length,
    availableGateways := getAvailableGateways env,
    configurationStatus := validateConfiguration env }

end GatewayFactory

/-- `Except` success as a boolean (a thrown vs non-thrown outcome). -/
def exceptOk : Except ε α → Bool
  | .ok _ => true
  | .error _ => false

/-! ## Shared lemmas about `validatePaymentData` -/

/-- Exact characterization of `validatePaymentData`: it accepts exactly the
requests whose `amount` is present and positive and whose `currency` is
present and nonempty; no further property of either field is examined. -/
theorem validate_isValid_iff (p : PaymentData) :
    (validatePaymentData p).isValid = true ↔
      ((∃ a, p.amount = some a ∧ 0 < a) ∧ ∃ c, p.currency = some c ∧ c ≠ "") := by
  unfold validatePaymentData
  cases hA : p.amount with
  | none => simp [truthyNum, hA]
  | some a =>
    cases hC : p.currency with
    | none => simp [truthyNum, truthyStr, hA, hC]
    | some c =>
      by_cases h0 : a = 0
      · subst h0
        simp [truthyNum, truthyStr, hA, hC]
      · by_cases hc0 : c = ""
        · subst hc0
          simp [truthyNum, truthyStr, hA, hC, h0]
        · by_cases hle : a ≤ 0
          · simp [truthyNum, truthyStr, hA, hC, h0, hc0, hle]
          · have hpos : (0 : ℚ) < a := lt_of_not_ge hle
            simp [truthyNum, truthyStr, hA, hC, h0, hc0, hle, hpos]

/-- Any request with a nonpositive amount or a falsy `currency` fails the
shared validator. -/
theorem validate_isValid_false_of_bad (p : PaymentData)
    (h : (∃ a, p.amount = some a ∧ a ≤ 0) ∨ truthyStr p.currency = false) :
    (validatePaymentData p).isValid = false := by
  rw [Bool.eq_false_iff]
  intro htrue
  rcases (validate_isValid_iff p).mp htrue with ⟨⟨a, ha, hap⟩, ⟨c, hc, hc0⟩⟩
  rcases h with ⟨b, hb, hble⟩ | hcf
  · rw [ha] at hb
    cases hb
    exact absurd hap (not_lt.mpr hble)
  · rw [hc] at hcf
    simp [truthyStr] at hcf
    exact hc0 hcf

/-! ## Concrete environments used by the witnesses -/

/-- A concrete draw stream: the `k`-th `generateUnifiedId()` call observes
`Date.now() = k` and `Math.random().toString(36) = "0.k3j4h5g6q"`. -/
def testDraws : Nat → Nat × String := fun k => (k, "0.k3j4h5g6q")

/-- A concrete Stripe environment whose transport always succeeds. -/
def testStripeEnv : StripeAdapter.Env :=
  { draws := testDraws
    nowIso := "2024-01-15T10:30:00.000Z"
    transport := fun _ => .ok
      { id := "pi_1", status := "succeeded", amount := 5000, currency := "usd",
        client_secret := "pi_1_secret", next_action := none } }

/-- A concrete Paystack environment whose transports always succeed and
whose provider-side amounts are `5000` minor units. -/
def testPaystackEnv : PaystackAdapter.Env :=
  { draws := testDraws
    nowIso := "2024-01-15T10:30:00.000Z"
    baseUrl := "https://example.com"
    transport := fun _ => .ok
      { id := "123", reference := "ref_1", authorization_url := "https://pay", access_code := "ac_1" }
    refundTransport := fun _ => .ok
      { id := "re_1", status := "processed", amount := 5000, currency := "NGN", reference := "ref_1" }
    verifyTransport := fun _ => .ok
      { status := "success", amount := 5000, currency := "NGN", reference := "ref_1",
        gateway := "paystack", channel := "card", paid_at := "t1", created_at := "t0" } }

/-- A request with a negative amount (JS-truthy, so it reaches the
`amount <= 0` check). -/
def pNegAmount : PaymentData :=
  { amount := some (-1), currency := some "USD", customerEmail := some "a@b.co" }

/-- A valid request for the Paystack paths: amount `50.00`, present currency
and customer email. -/
def pFifty : PaymentData :=
  { amount := some 50, currency := some "NGN", customerEmail := some "a@b.co" }

/-- A valid Stripe request carrying both a payment-method token and a
pending-intent id. -/
def pBoth : PaymentData :=
  { amount := some 50, currency := some "usd",
    paymentMethodId := some "pm_1", paymentIntentId := some "pi_9" }

/-- A valid Stripe request carrying only a pending-intent id. -/
def pIntentOnly : PaymentData :=
  { amount := some 50, currency := some "usd", paymentIntentId := some "pi_9" }

/-! ## C1 -/

/-- C1: for every payment request whose `amount` is `<= 0` or whose
`currency` field is missing (JS-falsy), all four adapter entry points —
`processPayment` and `createPaymentIntent` of both adapters — return a
`success: false` unified envelope and issue zero provider requests: the
shared `validatePaymentData` check precedes every transport call on such
paths. -/
theorem C1_invalid_payment_no_network
    (senv : StripeAdapter.Env) (penv : PaystackAdapter.Env) (p : PaymentData)
    (h : (∃ a, p.amount = some a ∧ a ≤ 0) ∨ truthyStr p.currency = false) :
    ((StripeAdapter.processPayment senv p).1.success = false
      ∧ (StripeAdapter.processPayment senv p).2 = [])
    ∧ ((StripeAdapter.createPaymentIntent senv p).1.success = false
      ∧ (StripeAdapter.createPaymentIntent senv p).2 = [])
    ∧ ((PaystackAdapter.processPayment penv p).1.success = false
      ∧ (PaystackAdapter.processPayment penv p).2 = [])
    ∧ ((PaystackAdapter.createPaymentIntent penv p).1.success = false
      ∧ (PaystackAdapter.createPaymentIntent penv p).2 = []) := by
  have hv := validate_isValid_false_of_bad p h
  refine ⟨⟨?_, ?_⟩, ⟨?_, ?_⟩, ⟨?_, ?_⟩, ⟨?_, ?_⟩⟩ <;>
    simp [StripeAdapter.processPayment, StripeAdapter.createPaymentIntent,
      PaystackAdapter.processPayment, PaystackAdapter.createPaymentIntent,
      hv, formatError, UnifiedResult.success]

/-- Witness for C1 at a concrete negative-amount request and concrete
environments. -/
theorem C1_witness :
    ((∃ a, pNegAmount.amount = some a ∧ a ≤ 0) ∨ truthyStr pNegAmount.currency = false)
    ∧ ((StripeAdapter.processPayment testStripeEnv pNegAmount).1.success = false
      ∧ (StripeAdapter.processPayment testStripeEnv pNegAmount).2 = [])
    ∧ ((StripeAdapter.createPaymentIntent testStripeEnv pNegAmount).1.success = false
      ∧ (StripeAdapter.createPaymentIntent testStripeEnv pNegAmount).2 = [])
    ∧ ((PaystackAdapter.processPayment testPaystackEnv pNegAmount).1.success = false
      ∧ (PaystackAdapter.processPayment testPaystackEnv pNegAmount).2 = [])
    ∧ ((PaystackAdapter.createPaymentIntent testPaystackEnv pNegAmount).1.success = false
      ∧ (PaystackAdapter.createPaymentIntent testPaystackEnv pNegAmount).2 = []) := by
  have h : (∃ a, pNegAmount.amount = some a ∧ a ≤ 0) ∨ truthyStr pNegAmount.currency = false :=
    Or.inl ⟨-1, rfl, by norm_num⟩
  exact ⟨h, (C1_invalid_payment_no_network testStripeEnv testPaystackEnv pNegAmount h).1,
    (C1_invalid_payment_no_network testStripeEnv testPaystackEnv pNegAmount h).2.1,
    (C1_invalid_payment_no_network testStripeEnv testPaystackEnv pNegAmount h).2.2.1,
    (C1_invalid_payment_no_network testStripeEnv testPaystackEnv pNegAmount h).2.2.2⟩

/-! ## C2 -/

/-- C2: the Paystack adapter multiplies the caller's major-unit amount by
100 before sending it to the provider (payment and refund paths) and
divides the amounts carried by provider responses by 100 before reporting
them back (refund and status-read paths; the payment path reports the
caller's own major-unit amount and reads no provider amount).  In
particular an input amount of `50.00` is sent as `5000` and a provider
amount of `5000` is reported as `50.00` (see the witness). -/
theorem C2_paystack_minor_unit_conversion :
    (∀ (env : PaystackAdapter.Env) (p : PaymentData) (a : ℚ),
       (validatePaymentData p).isValid = true → truthyStr p.customerEmail = true →
       p.amount = some a →
       (PaystackAdapter.processPayment env p).2.map (fun r => r.amount) = [a * 100])
  ∧ (∀ (env : PaystackAdapter.Env) (r : PaystackAdapter.RefundInput) (a : ℚ),
       truthyStr r.transactionReference = true → r.amount = some a → a ≠ 0 →
       (PaystackAdapter.processRefund env r).2.map (fun q => q.amount)
         = [some (a * 100)])
  ∧ (∀ (env : PaystackAdapter.Env) (r : PaystackAdapter.RefundInput)
       (d : PaystackAdapter.RefundData),
       truthyStr r.transactionReference = true →
       (∀ q, env.refundTransport q = .ok d) →
       (PaystackAdapter.processRefund env r).1.response.map (fun x => x.amount)
         = some (d.amount / 100))
  ∧ (∀ (env : PaystackAdapter.Env) (ref : String) (d : PaystackAdapter.VerifyData),
       (ref == "") = false → (∀ q, env.verifyTransport q = .ok d) →
       (PaystackAdapter.getPaymentStatus env ref).1.response.map (fun x => x.amount)
         = some (d.amount / 100)) := by
  refine ⟨?_, ?_, ?_, ?_⟩
  · intro env p a hv he ha
    simp only [PaystackAdapter.processPayment, hv, he, Bool.not_true, Bool.false_eq_true,
      if_false]
    split <;> simp [PaystackAdapter.transactionData, ha]
  · intro env r a href ha ha0
    simp only [PaystackAdapter.processRefund, href, Bool.not_true, Bool.false_eq_true,
      if_false]
    split <;> simp [truthyNum, ha, ha0]
  · intro env r d href htr
    simp [PaystackAdapter.processRefund, href, htr _, formatResponse,
      UnifiedResult.response]
  · intro env ref d href htr
    simp [PaystackAdapter.getPaymentStatus, href, htr _, formatResponse,
      UnifiedResult.response]

/-- Witness for C2: amount `50.00` is sent as `5000` on the payment and
refund paths, and the provider amount `5000` is reported back as `50.00`
on the refund and status-read paths. -/
theorem C2_witness :
    ((validatePaymentData pFifty).isValid = true
      ∧ truthyStr pFifty.customerEmail = true
      ∧ pFifty.amount = some 50)
    ∧ (PaystackAdapter.processPayment testPaystackEnv pFifty).2.map (fun r => r.amount)
        = [(5000 : ℚ)]
    ∧ (PaystackAdapter.processRefund testPaystackEnv
        { transactionReference := some "ref_1", amount := some 50 }).2.map (fun q => q.amount)
        = [some (5000 : ℚ)]
    ∧ (PaystackAdapter.processRefund testPaystackEnv
        { transactionReference := some "ref_1", amount := some 50 }).1.response.map
          (fun x => x.amount) = some (50 : ℚ)
    ∧ (PaystackAdapter.getPaymentStatus testPaystackEnv "ref_1").1.response.map
        (fun x => x.amount) = some (50 : ℚ) := by
  refine ⟨⟨by decide, by decide, rfl⟩, ?_, ?_, ?_, ?_⟩
  · have h := C2_paystack_minor_unit_conversion.1 testPaystackEnv pFifty 50
      (by decide) (by decide) rfl
    rw [h]; norm_num
  · have h := C2_paystack_minor_unit_conversion.2.1 testPaystackEnv
      { transactionReference := some "ref_1", amount := some 50 } 50
      (by decide) rfl (by norm_num)
    rw [h]; norm_num
  · have h := C2_paystack_minor_unit_conversion.2.2.1 testPaystackEnv
      { transactionReference := some "ref_1", amount := some 50 }
      { id := "re_1", status := "processed", amount := 5000, currency := "NGN",
        reference := "ref_1" }
      (by decide) (fun _ => rfl)
    rw [h]; norm_num
  · have h := C2_paystack_minor_unit_conversion.2.2.2 testPaystackEnv "ref_1"
      { status := "success", amount := 5000, currency := "NGN", reference := "ref_1",
        gateway := "paystack", channel := "card", paid_at := "t1", created_at := "t0" }
      (by decide) (fun _ => rfl)
    rw [h]; norm_num

/-! ## C3 -/

/-- C3: both adapters' `verifyWebhook` are total across their public
boundary: for every input and every behaviour of the underlying
SDK/crypto oracle the result is either `{isValid: true, event}` or
`{isValid: false, error}`; an oracle exception (`Except.error`) is converted
to `{isValid: false, error: message}`; and an absent (JS-falsy) signature
yields `isValid: false` with zero oracle invocations. -/
theorem C3_verify_webhook_never_throws :
    (∀ (ce : String → String → String → Except String String) (sec : String)
       (w : WebhookData),
       (((StripeAdapter.verifyWebhook ce sec w).1.isValid = true
           ∧ (StripeAdapter.verifyWebhook ce sec w).1.event.isSome = true
           ∧ (StripeAdapter.verifyWebhook ce sec w).1.error = none)
        ∨ ((StripeAdapter.verifyWebhook ce sec w).1.isValid = false
           ∧ (StripeAdapter.verifyWebhook ce sec w).1.error.isSome = true))
       ∧ (truthyStr w.signature = false →
            (StripeAdapter.verifyWebhook ce sec w).1.isValid = false
            ∧ (StripeAdapter.verifyWebhook ce sec w).2 = 0)
       ∧ (∀ msg, truthyStr w.signature = true →
            ce w.body (w.signature.getD "") sec = .error msg →
            (StripeAdapter.verifyWebhook ce sec w).1 = ⟨false, none, some msg⟩))
  ∧ (∀ (hmac : String → String → String) (sec : String) (w : WebhookData),
       (((PaystackAdapter.verifyWebhook hmac sec w).1.isValid = true
           ∧ (PaystackAdapter.verifyWebhook hmac sec w).1.event.isSome = true
           ∧ (PaystackAdapter.verifyWebhook hmac sec w).1.error = none)
        ∨ ((PaystackAdapter.verifyWebhook hmac sec w).1.isValid = false
           ∧ (PaystackAdapter.verifyWebhook hmac sec w).1.error.isSome = true))
       ∧ (truthyStr w.signature = false →
            (PaystackAdapter.verifyWebhook hmac sec w).1.isValid = false
            ∧ (PaystackAdapter.verifyWebhook hmac sec w).2 = 0)
       ∧ (truthyStr w.signature = true →
            (hmac sec w.body == w.signature.getD "") = false →
            (PaystackAdapter.verifyWebhook hmac sec w).1
              = ⟨false, none, some "Invalid webhook signature"⟩)) := by
  constructor
  · intro ce sec w
    refine ⟨?_, ?_, ?_⟩
    · by_cases hs : truthyStr w.signature
      · cases hce : ce w.body (w.signature.getD "") sec <;>
          simp [StripeAdapter.verifyWebhook, hs, hce]
      · simp [StripeAdapter.verifyWebhook, Bool.eq_false_iff.mpr hs]
    · intro hs
      simp [StripeAdapter.verifyWebhook, hs]
    · intro msg hs hce
      simp [StripeAdapter.verifyWebhook, hs, hce]
  · intro hmac sec w
    refine ⟨?_, ?_, ?_⟩
    · by_cases hs : truthyStr w.signature
      · by_cases hh : (hmac sec w.body == w.signature.getD "") = true <;>
          simp_all [PaystackAdapter.verifyWebhook]
      · simp [PaystackAdapter.verifyWebhook, Bool.eq_false_iff.mpr hs]
    · intro hs
      simp [PaystackAdapter.verifyWebhook, hs]
    · intro hs hh
      simp [PaystackAdapter.verifyWebhook, hs, hh]

/-- Witness for C3: a missing signature short-circuits both adapters with
zero crypto/SDK invocations, and a throwing Stripe SDK is converted to an
`isValid: false` result. -/
theorem C3_witness :
    (truthyStr (WebhookData.mk "{}" none).signature = false
      ∧ (StripeAdapter.verifyWebhook (fun _ _ _ => .error "boom") "sec"
          (WebhookData.mk "{}" none)).1.isValid = false
      ∧ (StripeAdapter.verifyWebhook (fun _ _ _ => .error "boom") "sec"
          (WebhookData.mk "{}" none)).2 = 0)
    ∧ ((PaystackAdapter.verifyWebhook (fun _ _ => "h") "sec"
          (WebhookData.mk "{}" none)).1.isValid = false
      ∧ (PaystackAdapter.verifyWebhook (fun _ _ => "h") "sec"
          (WebhookData.mk "{}" none)).2 = 0)
    ∧ (StripeAdapter.verifyWebhook (fun _ _ _ => .error "boom") "sec"
        (WebhookData.mk "{}" (some "sig"))).1 = ⟨false, none, some "boom"⟩ := by
  refine ⟨⟨by decide, ?_⟩, ?_, ?_⟩
  · exact (C3_verify_webhook_never_throws.1 (fun _ _ _ => .error "boom") "sec"
      (WebhookData.mk "{}" none)).2.1 (by decide)
  · exact (C3_verify_webhook_never_throws.2 (fun _ _ => "h") "sec"
      (WebhookData.mk "{}" none)).2.1 (by decide)
  · exact (C3_verify_webhook_never_throws.1 (fun _ _ _ => .error "boom") "sec"
      (WebhookData.mk "{}" (some "sig"))).2.2 "boom" (by decide) rfl

/-! ## C4 -/

/-- C4 counterexample: a request missing both required fields makes
`StripeAdapter.processPayment` return a `UnifiedError` whose code is the
generic `"UNKNOWN_ERROR"`, not `"VALIDATION_ERROR"` — the validator's
failure is rethrown as a plain `Error`, which carries no `code` property,
so `formatError` falls back to its generic code. -/
theorem C4_counterexample :
    (StripeAdapter.processPayment testStripeEnv {}).1.errorCode = some "UNKNOWN_ERROR"
    ∧ (StripeAdapter.processPayment testStripeEnv {}).1.errorCode ≠ some "VALIDATION_ERROR"
    ∧ (StripeAdapter.processPayment testStripeEnv {}).1.errorMessage
        = some "Validation failed: amount is required, currency is required" := by
  refine ⟨rfl, by decide, rfl⟩

/-- C4 (amended): every locally-detected validation failure (before any
network call) yields, on all four adapter entry points, a `UnifiedError`
whose message is `"Validation failed: "` followed by the human-readable
list of missing/invalid fields, but whose code is the generic
`"UNKNOWN_ERROR"` — the same code used for unrecognized provider errors —
because the internally thrown `Error` has no `code` property. -/
theorem C4_validation_failure_unknown_error_code
    (senv : StripeAdapter.Env) (penv : PaystackAdapter.Env) (p : PaymentData)
    (h : (validatePaymentData p).isValid = false) :
    ((StripeAdapter.processPayment senv p).1.errorCode = some "UNKNOWN_ERROR"
      ∧ (StripeAdapter.processPayment senv p).1.errorMessage
          = some ("Validation failed: "
              ++ String.intercalate ", " (validatePaymentData p).errors))
    ∧ ((StripeAdapter.createPaymentIntent senv p).1.errorCode = some "UNKNOWN_ERROR"
      ∧ (StripeAdapter.createPaymentIntent senv p).1.errorMessage
          = some ("Validation failed: "
              ++ String.intercalate ", " (validatePaymentData p).errors))
    ∧ ((PaystackAdapter.processPayment penv p).1.errorCode = some "UNKNOWN_ERROR"
      ∧ (PaystackAdapter.processPayment penv p).1.errorMessage
          = some ("Validation failed: "
              ++ String.intercalate ", " (validatePaymentData p).errors))
    ∧ ((PaystackAdapter.createPaymentIntent penv p).1.errorCode = some "UNKNOWN_ERROR"
      ∧ (PaystackAdapter.createPaymentIntent penv p).1.errorMessage
          = some ("Validation failed: "
              ++ String.intercalate ", " (validatePaymentData p).errors)) := by
  refine ⟨⟨?_, ?_⟩, ⟨?_, ?_⟩, ⟨?_, ?_⟩, ⟨?_, ?_⟩⟩ <;>
    simp [StripeAdapter.processPayment, StripeAdapter.createPaymentIntent,
      PaystackAdapter.processPayment, PaystackAdapter.createPaymentIntent, h,
      formatError, jsOrStr, UnifiedResult.errorCode, UnifiedResult.errorMessage]

/-- Witness for C4's amended theorem at a concrete invalid request. -/
theorem C4_witness :
    (validatePaymentData { currency := some "USD" }).isValid = false
    ∧ (PaystackAdapter.processPayment testPaystackEnv
        { currency := some "USD" }).1.errorCode = some "UNKNOWN_ERROR"
    ∧ (PaystackAdapter.processPayment testPaystackEnv
        { currency := some "USD" }).1.errorMessage
        = some ("Validation failed: "
            ++ String.intercalate ", "
                 (validatePaymentData { currency := some "USD" }).errors) := by
  refine ⟨by decide, ?_, ?_⟩
  · exact (C4_validation_failure_unknown_error_code testStripeEnv testPaystackEnv
      { currency := some "USD" } (by decide)).2.2.1.1
  · exact (C4_validation_failure_unknown_error_code testStripeEnv testPaystackEnv
      { currency := some "USD" } (by decide)).2.2.1.2

/-! ## C5 -/

/-- C5: on a valid request, `StripeAdapter.processPayment` issues exactly
one SDK call, chosen by a three-way branch in priority order: a truthy
`paymentMethodId` (regardless of `paymentIntentId`) leads to a single
create-and-confirm call carrying that payment method; otherwise a truthy
`paymentIntentId` leads to a confirm call on that intent; otherwise a
create call that neither confirms nor carries a payment method. -/
theorem C5_stripe_three_way_branch (env : StripeAdapter.Env) (p : PaymentData)
    (hv : (validatePaymentData p).isValid = true) :
    (truthyStr p.paymentMethodId = true →
       (StripeAdapter.processPayment env p).2
         = [.create (StripeAdapter.createParams env p p.paymentMethodId true
              "Payment via Unified Payments API")]
       ∧ (StripeAdapter.createParams env p p.paymentMethodId true
            "Payment via Unified Payments API").confirm = true
       ∧ (StripeAdapter.createParams env p p.paymentMethodId true
            "Payment via Unified Payments API").payment_method = p.paymentMethodId)
    ∧ (truthyStr p.paymentMethodId = false → truthyStr p.paymentIntentId = true →
       (StripeAdapter.processPayment env p).2 = [.confirm (p.paymentIntentId.getD "")])
    ∧ (truthyStr p.paymentMethodId = false → truthyStr p.paymentIntentId = false →
       (StripeAdapter.processPayment env p).2
         = [.create (StripeAdapter.createParams env p none false
              "Payment via Unified Payments API")]
       ∧ (StripeAdapter.createParams env p none false
            "Payment via Unified Payments API").confirm = false
       ∧ (StripeAdapter.createParams env p none false
            "Payment via Unified Payments API").payment_method = none) := by
  refine ⟨?_, ?_, ?_⟩
  · intro hm
    refine ⟨?_, rfl, rfl⟩
    simp only [StripeAdapter.processPayment, hv, hm, Bool.not_true, Bool.false_eq_true,
      if_false, if_true]
    split <;> rfl
  · intro hm hi
    simp only [StripeAdapter.processPayment, hv, hm, hi, Bool.not_true, Bool.false_eq_true,
      if_false, if_true]
    split <;> rfl
  · intro hm hi
    refine ⟨?_, rfl, rfl⟩
    simp only [StripeAdapter.processPayment, hv, hm, hi, Bool.not_true, Bool.false_eq_true,
      if_false, if_true]
    split <;> rfl

/-- Witness for C5: all three branches exercised on concrete requests,
including the token-beats-intent-id priority case where both identifiers
are present. -/
theorem C5_witness :
    ((validatePaymentData pBoth).isValid = true ∧ truthyStr pBoth.paymentMethodId = true
      ∧ (StripeAdapter.processPayment testStripeEnv pBoth).2
          = [.create (StripeAdapter.createParams testStripeEnv pBoth
               pBoth.paymentMethodId true "Payment via Unified Payments API")])
    ∧ ((StripeAdapter.processPayment testStripeEnv pIntentOnly).2
          = [.confirm "pi_9"])
    ∧ ((StripeAdapter.processPayment testStripeEnv pFifty).2
          = [.create (StripeAdapter.createParams testStripeEnv pFifty none false
               "Payment via Unified Payments API")]) := by
  refine ⟨⟨by decide, by decide, ?_⟩, ?_, ?_⟩
  · exact ((C5_stripe_three_way_branch testStripeEnv pBoth (by decide)).1 (by decide)).1
  · exact (C5_stripe_three_way_branch testStripeEnv pIntentOnly (by decide)).2.1
      (by decide) (by decide)
  · exact ((C5_stripe_three_way_branch testStripeEnv pFifty (by decide)).2.2
      (by decide) (by decide)).1

/-! ## C6 -/

/-- C6: for every configuration and every gateway name in any letter case,
`isGatewayAvailable(name)` — a total boolean that never throws — is true
exactly when `getGateway(name)` does not fail; when it fails, `getGateway`
throws the `Unsupported payment gateway` error; and the only throwing
factory operation besides `getGateway` itself, `getGatewayCapabilities`,
fails exactly when that lookup fails (all other operations are total). -/
theorem C6_availability_getGateway_roundtrip (env : FactoryEnv) (name : String) :
    (GatewayFactory.isGatewayAvailable env name = true
       ↔ exceptOk (GatewayFactory.getGateway env name) = true)
    ∧ (exceptOk (GatewayFactory.getGateway env name) = false →
         GatewayFactory.getGateway env name
           = .error ("Unsupported payment gateway: " ++ name))
    ∧ exceptOk (GatewayFactory.getGatewayCapabilities env name)
        = exceptOk (GatewayFactory.getGateway env name) := by
  refine ⟨?_, ?_, ?_⟩
  · simp only [GatewayFactory.isGatewayAvailable, GatewayFactory.getGateway]
    cases hf : (GatewayFactory.adapters env).find? (fun kv => kv.1 == jsToLower name) with
    | none =>
        simp only [hf, exceptOk, List.any_eq_true]
        rw [List.find?_eq_none] at hf
        constructor
        · rintro ⟨kv, hkv, hp⟩
          exact absurd hp (hf kv hkv)
        · intro hfalse
          exact absurd hfalse (by simp)
    | some kv =>
        simp only [hf, exceptOk, List.any_eq_true, iff_true]
        have hp := List.find?_some hf
        exact ⟨kv, List.mem_of_find?_eq_some hf, by simpa using hp⟩
  · simp only [GatewayFactory.getGateway]
    cases hf : (GatewayFactory.adapters env).find? (fun kv => kv.1 == jsToLower name) with
    | none => intro _; rfl
    | some kv => intro hc; exact absurd hc (by simp [exceptOk])
  · simp only [GatewayFactory.getGatewayCapabilities]
    cases hg : GatewayFactory.getGateway env name <;> simp [exceptOk, hg]

/-- A configuration with only the Stripe credential present. -/
def envStripeOnly : FactoryEnv := { STRIPE_SECRET_KEY := some "sk_test_1" }

/-- Witness for C6: with only Stripe configured, the round-trip holds at a
mixed-case name, and the Paystack lookup throws the unsupported-gateway
error. -/
theorem C6_witness :
    (GatewayFactory.isGatewayAvailable envStripeOnly "Stripe" = true
      ↔ exceptOk (GatewayFactory.getGateway envStripeOnly "Stripe") = true)
    ∧ GatewayFactory.getGateway envStripeOnly "paystack"
        = .error ("Unsupported payment gateway: " ++ "paystack") :=
  ⟨(C6_availability_getGateway_roundtrip envStripeOnly "Stripe").1,
   (C6_availability_getGateway_roundtrip envStripeOnly "paystack").2.1 (by decide)⟩

/-! ## C7 -/

/-- C7: for every configuration — including zero configured gateways —
`validateConfiguration` returns a record whose `errors` list is empty and
whose `isValid` flag is consequently `true`; a missing provider credential
is reported only as a warning naming that credential. -/
theorem C7_validateConfiguration_warnings_only (env : FactoryEnv) :
    (GatewayFactory.validateConfiguration env).errors = []
    ∧ (GatewayFactory.validateConfiguration env).isValid = true
    ∧ (truthyStr env.STRIPE_SECRET_KEY = false →
        "Stripe is not configured (STRIPE_SECRET_KEY missing)"
          ∈ (GatewayFactory.validateConfiguration env).warnings)
    ∧ (truthyStr env.PAYSTACK_SECRET_KEY = false →
        "Paystack is not configured (PAYSTACK_SECRET_KEY missing)"
          ∈ (GatewayFactory.validateConfiguration env).warnings)
    ∧ (GatewayFactory.validateConfiguration env).availableGateways
        = GatewayFactory.getAvailableGateways env := by
  cases hS : truthyStr env.STRIPE_SECRET_KEY <;>
    cases hP : truthyStr env.PAYSTACK_SECRET_KEY <;>
      simp [GatewayFactory.validateConfiguration, hS, hP]

/-- Witness for C7 at the empty configuration: no errors, `isValid` true,
and both missing credentials named in the warnings. -/
theorem C7_witness :
    (GatewayFactory.validateConfiguration {}).errors = []
    ∧ (GatewayFactory.validateConfiguration {}).isValid = true
    ∧ "Stripe is not configured (STRIPE_SECRET_KEY missing)"
        ∈ (GatewayFactory.validateConfiguration {}).warnings
    ∧ "Paystack is not configured (PAYSTACK_SECRET_KEY missing)"
        ∈ (GatewayFactory.validateConfiguration {}).warnings :=
  ⟨(C7_validateConfiguration_warnings_only {}).1,
   (C7_validateConfiguration_warnings_only {}).2.1,
   (C7_validateConfiguration_warnings_only {}).2.2.1 (by decide),
   (C7_validateConfiguration_warnings_only {}).2.2.2.1 (by decide)⟩

/-! ## C8 -/

/-- C8 counterexample: a request whose currency is present but four
characters long passes the shared validator — `validatePaymentData`
performs no currency-length check, so the `currency length == 3` invariant
is not enforced and no `UnifiedError` is produced on this path. -/
theorem C8_counterexample :
    (validatePaymentData { amount := some 50, currency := some "USDA" }).isValid = true
    ∧ "USDA".length ≠ 3 := by
  exact ⟨by decide, by decide⟩

/-- C8 (amended): the shared `validatePaymentData` helper rejects exactly
the requests with a missing/zero amount, a nonpositive amount, or a
missing/empty currency; it enforces no currency-length condition — a
present nonempty currency of any length passes. -/
theorem C8_validate_characterization (p : PaymentData) :
    (validatePaymentData p).isValid = true ↔
      ((∃ a, p.amount = some a ∧ 0 < a) ∧ ∃ c, p.currency = some c ∧ c ≠ "") :=
  validate_isValid_iff p

/-- Witness for C8's amended characterization at a concrete request with a
five-character currency. -/
theorem C8_witness :
    (validatePaymentData { amount := some 50, currency := some "USDXX" }).isValid = true :=
  (C8_validate_characterization { amount := some 50, currency := some "USDXX" }).mpr
    ⟨⟨50, rfl, by norm_num⟩, "USDXX", rfl, by decide⟩

/-! ## C9 -/

/-- A Paystack environment whose id-generator draws all observe
`Date.now() = 0` and `Math.random() = 0.5`, whose base-36 rendering is the
three-character string `"0.i"`. -/
def shortDrawPaystackEnv : PaystackAdapter.Env :=
  { testPaystackEnv with draws := fun _ => (0, "0.i") }

/-- C9 counterexample: when the random draw is `0.5` —
`(0.5).toString(36)` is `"0.i"` — the produced envelope's `unifiedId` is
`unified_paystackadapter_0_i`: its random suffix `substr(2, 5)` is the
single character `"i"`, not a 5-character string. -/
theorem C9_counterexample :
    (PaystackAdapter.processPayment shortDrawPaystackEnv pFifty).1.unifiedId
      = "unified_paystackadapter_0_i"
    ∧ (PaystackAdapter.processPayment shortDrawPaystackEnv pFifty).1.unifiedId
      = "unified_paystackadapter_" ++ toBase36 0 ++ "_" ++ randSuffix "0.i"
    ∧ (randSuffix "0.i").length ≠ 5 := by
  exact ⟨by decide, by decide, by decide⟩

/-- C9 (amended): every unified envelope built by the shared helpers has
`unifiedId = "unified_" ++ g ++ "_" ++ base36(now) ++ "_" ++ suffix` where
`g` is exactly the envelope's top-level `gateway` field (the lower-cased
gateway name), `now` is the `Date.now()` timestamp rendered in base 36,
and the random suffix — `Math.random().toString(36).substr(2, 5)` — is at
most (not always exactly) five characters long. -/
theorem C9_unifiedId_structure :
    ∀ (gw nowIso : String) (now : Nat) (r : String),
      (∀ (α : Type) (resp : α),
        (formatResponse gw nowIso (generateUnifiedId (jsToLower gw) now r) resp).unifiedId
          = "unified_"
            ++ (formatResponse gw nowIso (generateUnifiedId (jsToLower gw) now r)
                  resp).gateway
            ++ "_" ++ toBase36 now ++ "_" ++ randSuffix r)
      ∧ (∀ (α : Type) (msg : String) (code details : Option String),
        (formatError gw nowIso (generateUnifiedId (jsToLower gw) now r) msg code details
            : UnifiedResult α).unifiedId
          = "unified_"
            ++ (formatError gw nowIso (generateUnifiedId (jsToLower gw) now r) msg code
                  details : UnifiedResult α).gateway
            ++ "_" ++ toBase36 now ++ "_" ++ randSuffix r)
      ∧ (randSuffix r).length ≤ 5 := by
  intro gw nowIso now r
  refine ⟨fun α resp => rfl, fun α msg code details => rfl, ?_⟩
  show (List.take 5 (r.data.drop 2)).length ≤ 5
  rw [List.length_take]
  exact min_le_left _ _

/-! ## C10 -/

/-- C10: on the Paystack transaction paths (`processPayment` and
`createPaymentIntent`, valid request, caller metadata without its own
`unified_payment_id` key), the provider-facing `reference`, the sent
`metadata.unified_payment_id`, and the envelope's `unifiedId` come from
three separate `generateUnifiedId()` invocations (draws 0, 1 and 2
respectively); consequently, whenever those invocations yield different
strings, the envelope's `unifiedId` differs from the reference under which
the provider knows the transaction, so it cannot be used to look the
transaction up at the provider. -/
theorem C10_three_separate_id_invocations
    (env : PaystackAdapter.Env) (p : PaymentData)
    (hv : (validatePaymentData p).isValid = true)
    (he : truthyStr p.customerEmail = true)
    (hm : p.metadata.find? (fun kv => kv.1 == "unified_payment_id") = none) :
    ((PaystackAdapter.processPayment env p).2.map (fun r => r.reference)
        = [genAt PaystackAdapter.gatewayName env.draws 0]
      ∧ (PaystackAdapter.processPayment env p).2.map
          (fun r => r.metadata.effectiveUnifiedPaymentId)
        = [genAt PaystackAdapter.gatewayName env.draws 1]
      ∧ (PaystackAdapter.processPayment env p).1.unifiedId
        = genAt PaystackAdapter.gatewayName env.draws 2)
    ∧ ((PaystackAdapter.createPaymentIntent env p).2.map (fun r => r.reference)
        = [genAt PaystackAdapter.gatewayName env.draws 0]
      ∧ (PaystackAdapter.createPaymentIntent env p).2.map
          (fun r => r.metadata.effectiveUnifiedPaymentId)
        = [genAt PaystackAdapter.gatewayName env.draws 1]
      ∧ (PaystackAdapter.createPaymentIntent env p).1.unifiedId
        = genAt PaystackAdapter.gatewayName env.draws 2)
    ∧ (genAt PaystackAdapter.gatewayName env.draws 0
         ≠ genAt PaystackAdapter.gatewayName env.draws 2 →
       ∀ r ∈ (PaystackAdapter.processPayment env p).2,
         (PaystackAdapter.processPayment env p).1.unifiedId ≠ r.reference) := by
  have hpay : (PaystackAdapter.processPayment env p).2.map (fun r => r.reference)
        = [genAt PaystackAdapter.gatewayName env.draws 0]
      ∧ (PaystackAdapter.processPayment env p).2.map
          (fun r => r.metadata.effectiveUnifiedPaymentId)
        = [genAt PaystackAdapter.gatewayName env.draws 1]
      ∧ (PaystackAdapter.processPayment env p).1.unifiedId
        = genAt PaystackAdapter.gatewayName env.draws 2 := by
    simp only [PaystackAdapter.processPayment, hv, he, Bool.not_true,
      Bool.false_eq_true, if_false]
    split <;>
      simp [PaystackAdapter.transactionData, MergedMetadata.effectiveUnifiedPaymentId,
        hm, formatResponse, formatError, UnifiedResult.unifiedId]
  refine ⟨hpay, ?_, ?_⟩
  · simp only [PaystackAdapter.createPaymentIntent, hv, he, Bool.not_true,
      Bool.false_eq_true, if_false]
    split <;>
      simp [PaystackAdapter.transactionData, MergedMetadata.effectiveUnifiedPaymentId,
        hm, formatResponse, formatError, UnifiedResult.unifiedId]
  · intro hne r hr
    rw [hpay.2.2]
    have hmem : r.reference
        ∈ (PaystackAdapter.processPayment env p).2.map (fun r => r.reference) :=
      List.mem_map_of_mem (fun r => r.reference) hr
    rw [hpay.1] at hmem
    rw [List.mem_singleton] at hmem
    rw [hmem]
    exact hne.symm

/-- Witness for C10 at a concrete environment whose three draws are
distinct: the envelope's `unifiedId` (draw 2) differs from the provider
reference (draw 0). -/
theorem C10_witness :
    ((validatePaymentData pFifty).isValid = true
      ∧ truthyStr pFifty.customerEmail = true
      ∧ pFifty.metadata.find? (fun kv => kv.1 == "unified_payment_id") = none)
    ∧ (PaystackAdapter.processPayment testPaystackEnv pFifty).2.map (fun r => r.reference)
        = [genAt PaystackAdapter.gatewayName testPaystackEnv.draws 0]
    ∧ (PaystackAdapter.processPayment testPaystackEnv pFifty).1.unifiedId
        = genAt PaystackAdapter.gatewayName testPaystackEnv.draws 2
    ∧ ∀ r ∈ (PaystackAdapter.processPayment testPaystackEnv pFifty).2,
        (PaystackAdapter.processPayment testPaystackEnv pFifty).1.unifiedId
          ≠ r.reference := by
  have h := C10_three_separate_id_invocations testPaystackEnv pFifty
    (by decide) (by decide) rfl
  exact ⟨⟨by decide, by decide, rfl⟩, h.1.1, h.1.2.2, h.2.2 (by decide)⟩

example : toBase36 0 = "0" := rfl
example : toBase36 2 = "2" := rfl
example : toBase36 36 = "10" := rfl
example : toBase36 46655 = "zzz" := rfl
example : randSuffix "0.k3j4h5g6q" = "k3j4h" := rfl
example : randSuffix "0.i" = "i" := rfl
example : randSuffix "0" = "" := rfl
example : (validatePaymentData { amount := some 50, currency := some "USDA" }).isValid = true := rfl
example : (validatePaymentData { amount := some 0, currency := some "USD" }).errors
    = ["amount is required"] := rfl
example : (validatePaymentData {}).errors = ["amount is required", "currency is required"] := rfl

end UnifiedPayments
